import Mathlib

/-!
Verification of the jobNexus-ai client (src/frontend/src/App.jsx).

The component `App` holds five pieces of React state and two event
handlers.  We embed the state as a record `AppState`, the handlers as
pure state-transition functions, and the network interaction of
`handleSubmit` as an explicit `NetOutcome` oracle: the handler is a
function of the state and of how the single axios request settles.
JavaScript `undefined`/`null` values are modelled with `Option`; the
JS truthiness of strings (empty string is falsy) is made explicit
where the source relies on it.
-/

namespace JobNexus

/-- A user-chosen file handle: its name and its declared MIME type
(the JS `File.type` attribute read at App.jsx line 15). -/
structure File where
  name : String
  type : String
  deriving Repr, DecidableEq

/-- One education entry of the resume analysis (App.jsx lines 243-248). -/
structure Education where
  degree : String
  institution : String
  year : String
  deriving Repr, DecidableEq

/-- One experience entry of the resume analysis (App.jsx lines 255-260). -/
structure Experience where
  position : String
  company : String
  duration : String
  deriving Repr, DecidableEq

/-- The resume-analysis payload rendered at App.jsx lines 221-265. -/
structure ResumeAnalysis where
  skills : List String
  education : List Education
  experience : List Experience
  deriving Repr, DecidableEq

/-- One job listing, with exactly the fields the renderer reads
(App.jsx lines 157-206): id, title, company, company_logo, location,
mode, match_score and url. -/
structure Job where
  id : Nat
  title : String
  company : String
  company_logo : String
  location : String
  mode : String
  match_score : Nat
  url : String
  deriving Repr, DecidableEq

/-- Body of a 2xx response (`response.data` at App.jsx lines 53-54).
Both fields are read without any shape validation, so each is an
`Option`: `none` models the JS value `undefined` when the field is
absent from the JSON body. -/
structure ResponseData where
  resume_analysis : Option ResumeAnalysis
  job_listings : Option (List Job)
  deriving Repr, DecidableEq

/-- JSON body of a non-2xx response; `detail` is optional. -/
structure ErrorBody where
  detail : Option String
  deriving Repr, DecidableEq

/-- The `response` object attached to an axios error; `data` is the
parsed body when one exists. -/
structure ErrorResponse where
  data : Option ErrorBody
  deriving Repr, DecidableEq

/-- The error caught at App.jsx line 55.  A network failure has no
`response` at all; a non-2xx reply carries one. -/
structure AxiosError where
  response : Option ErrorResponse
  deriving Repr, DecidableEq

/-- How the single axios POST settles: a 2xx response with a body, or
a rejection (non-2xx or network error) with an `AxiosError`. -/
inductive NetOutcome where
  | success (data : ResponseData)
  | failure (error : AxiosError)
  deriving Repr, DecidableEq

/-- The five React state hooks of `App` (App.jsx lines 5-9).
`jobListings` is an `Option` so that the unvalidated store of an
absent `job_listings` field (JS `undefined`) is representable; the
initial `useState([])` value is `some []`. -/
structure AppState where
  file : Option File
  isUploading : Bool
  uploadError : String
  jobListings : Option (List Job)
  resumeAnalysis : Option ResumeAnalysis
  deriving Repr, DecidableEq

/-- The initial state set by the `useState` calls at App.jsx lines 5-9:
no file, not uploading, empty error, empty listings, null analysis. -/
def initialState : AppState :=
  { file := none
    isUploading := false
    uploadError := ""
    jobListings := some []
    resumeAnalysis := none }

/-- The accepted MIME types (App.jsx lines 16-19). -/
def validTypes : List String :=
  ["application/pdf",
   "application/vnd.openxmlformats-officedocument.wordprocessingml.document"]

/-- `handleFileChange` (App.jsx lines 11-30).  `files` is
`e.target.files`; the handler reads index 0, does nothing when the
list is empty (JS `undefined` is falsy), rejects a file whose type is
not in `validTypes`, and otherwise stores it and clears the error. -/
def handleFileChange (files : List File) (s : AppState) : AppState :=
  match files.head? with
  | none => s
  | some selectedFile =>
    if (validTypes.contains selectedFile.type) = false then
      { s with uploadError := "Please upload only PDF or DOCX files", file := none }
    else
      { s with file := some selectedFile, uploadError := "" }

/-- The HTTP request axios is asked to send (App.jsx lines 43-51). -/
structure Request where
  method : String
  url : String
  contentType : String
  parts : List (String × File)
  deriving Repr, DecidableEq

/-- The request built at App.jsx lines 43-51: POST of a multipart
form holding the selected file under the single field name `file`. -/
def uploadRequest (f : File) : Request :=
  { method := "POST"
    url := "http://localhost:8000/api/upload-resume"
    contentType := "multipart/form-data"
    parts := [("file", f)] }

/-- Drop everything up to and including the first scheme marker. -/
def afterSchemeMarker : List Char → List Char
  | [] => []
  | ':' :: '/' :: '/' :: rest => rest
  | _ :: rest => afterSchemeMarker rest

/-- Keep the characters from the first slash on. -/
def fromFirstSlash : List Char → List Char
  | [] => []
  | c :: cs => if c = '/' then c :: cs else fromFirstSlash cs

/-- Path component of a URL: drop the scheme and the authority. -/
def urlPath (url : String) : String :=
  String.mk (fromFirstSlash (afterSchemeMarker url.toList))

/-- The message computed at App.jsx line 57:
`error.response?.data?.detail || "Error uploading resume"`.
Optional chaining yields the fallback when `response`, `data` or
`detail` is absent; the JS or-else operator also yields the fallback
when `detail` is present but falsy, that is, the empty string. -/
def errorMessage (error : AxiosError) : String :=
  match error.response with
  | none => "Error uploading resume"
  | some r =>
    match r.data with
    | none => "Error uploading resume"
    | some d =>
      match d.detail with
      | none => "Error uploading resume"
      | some s => if s = "" then "Error uploading resume" else s

/-- The value of `error.response?.data?.detail` as an `Option`. -/
def detailOf (error : AxiosError) : Option String :=
  (error.response.bind ErrorResponse.data).bind ErrorBody.detail

/-- State change performed before the request is issued
(App.jsx lines 40-41): set `isUploading`, clear `uploadError`. -/
def startUpload (s : AppState) : AppState :=
  { s with isUploading := true, uploadError := "" }

/-- State change performed once the request settles
(App.jsx lines 46-60).  The try branch stores both response fields
verbatim; the catch branch stores `errorMessage`; the finally branch
always resets `isUploading`. -/
def settleUpload (s : AppState) (outcome : NetOutcome) : AppState :=
  let s1 :=
    match outcome with
    | .success data =>
      { s with resumeAnalysis := data.resume_analysis
               jobListings := data.job_listings }
    | .failure error =>
      { s with uploadError := errorMessage error }
  { s1 with isUploading := false }

/-- `handleSubmit` (App.jsx lines 32-61), as a function of the state
and of the settlement of the single request.  With no file selected
it only sets the error and issues no request (the outcome argument is
ignored: no request exists to settle).  With a file it first applies
`startUpload`, then issues exactly the one request of
`uploadRequest`, then applies `settleUpload` to the outcome. -/
def handleSubmit (s : AppState) (outcome : NetOutcome) : AppState × List Request :=
  match s.file with
  | none => ({ s with uploadError := "Please select a file first" }, [])
  | some f => (settleUpload (startUpload s) outcome, [uploadRequest f])

/-- A rendered job card: the dynamic texts the JSX at App.jsx lines
157-214 interpolates for one listing.  `matchScoreText` is the badge
text at line 193 and `progressBarWidth` the style width at line 199. -/
structure JobCard where
  title : String
  company : String
  companyLogo : String
  location : String
  mode : String
  matchScoreText : String
  progressBarWidth : String
  viewUrl : String
  deriving Repr, DecidableEq

/-- The card rendered for one job (App.jsx lines 157-214). -/
def renderJobCard (job : Job) : JobCard :=
  { title := job.title
    company := job.company
    companyLogo := job.company_logo
    location := job.location
    mode := job.mode
    matchScoreText := toString job.match_score ++ "%"
    progressBarWidth := toString job.match_score ++ "%"
    viewUrl := job.url }

/-- The job-cards section (App.jsx lines 149-218): rendered only when
`jobListings.length > 0`, one card per listing. -/
def renderJobCards (jobListings : List Job) : List JobCard :=
  if 0 < jobListings.length then jobListings.map renderJobCard else []

/-- The guard `jobListings.length > 0` at App.jsx line 149, as
evaluated by JavaScript: reading `.length` of `undefined` throws a
TypeError instead of producing a boolean. -/
def jobListingsNonEmpty : Option (List Job) → Except String Bool
  | none => Except.error "TypeError: cannot read property length of undefined"
  | some l => Except.ok (decide (0 < l.length))

/-- The job-cards section as a function of the state: the guard may
throw when the stored value is `undefined`. -/
def renderedJobCards (s : AppState) : Except String (List JobCard) :=
  match s.jobListings with
  | none => Except.error "TypeError: cannot read property length of undefined"
  | some l => Except.ok (renderJobCards l)

/-- A user event the component reacts to. -/
inductive Event where
  | fileChange (files : List File)
  | submit (outcome : NetOutcome)
  deriving Repr, DecidableEq

/-- One event-handler invocation. -/
def step (s : AppState) (e : Event) : AppState :=
  match e with
  | .fileChange files => handleFileChange files s
  | .submit outcome => (handleSubmit s outcome).1

/-- Run a sequence of events from a state. -/
def run (s : AppState) : List Event → AppState
  | [] => s
  | e :: es => run (step s e) es

/-- Whether an event is a submit whose request settled successfully. -/
def isSuccessSubmit : Event → Bool
  | .submit (.success _) => true
  | _ => false

/-! Concrete sample values used by witnesses and counterexamples. -/

/-- A file whose declared MIME type is the accepted PDF type. -/
def pdfFile : File := { name := "resume.pdf", type := "application/pdf" }

/-- A state with a valid file selected, as after a successful
`handleFileChange`. -/
def stateWithFile : AppState := { initialState with file := some pdfFile }

/-- A sample job listing. -/
def sampleJob : Job :=
  { id := 1
    title := "Dev"
    company := "Acme"
    company_logo := "logo.png"
    location := "Remote"
    mode := "Full-time"
    match_score := 85
    url := "https://example.com/job/1" }

/-- A sample resume analysis. -/
def sampleAnalysis : ResumeAnalysis :=
  { skills := ["Python"], education := [], experience := [] }

/-- A sample success body carrying both expected fields. -/
def sampleResponse : ResponseData :=
  { resume_analysis := some sampleAnalysis, job_listings := some [sampleJob] }

/-- A success body lacking both fields. -/
def emptyBody : ResponseData := { resume_analysis := none, job_listings := none }

/-- A non-2xx response whose body carries `detail` with a non-empty string. -/
def detailError : AxiosError :=
  { response := some { data := some { detail := some "file too large" } } }

/-- A non-2xx response whose body carries `detail` equal to the empty
string: the field is present but falsy in JavaScript. -/
def emptyDetailError : AxiosError :=
  { response := some { data := some { detail := some "" } } }

/-- A pure network failure: no response object at all. -/
def networkError : AxiosError := { response := none }

/-- A state holding one job listing, as after a successful upload. -/
def stateWithJobs : AppState := { initialState with jobListings := some [sampleJob] }

/-! Helper lemmas shared by the claim theorems. -/

/-- When the caught error carries a non-empty `detail` string, that
string is the message. -/
theorem errorMessage_eq_detail (error : AxiosError) (d : String)
    (hd : detailOf error = some d) (hne : d ≠ "") : errorMessage error = d := by
  obtain ⟨resp⟩ := error
  cases resp with
  | none => simp [detailOf] at hd
  | some r =>
    obtain ⟨dta⟩ := r
    cases dta with
    | none => simp [detailOf] at hd
    | some b =>
      obtain ⟨det⟩ := b
      cases det with
      | none => simp [detailOf] at hd
      | some s0 =>
        simp [detailOf] at hd
        subst hd
        simp [errorMessage, hne]

/-- When `detail` is absent or is the empty string, the generic
fallback is the message. -/
theorem errorMessage_fallback (error : AxiosError)
    (h : detailOf error = none ∨ detailOf error = some "") :
    errorMessage error = "Error uploading resume" := by
  obtain ⟨resp⟩ := error
  cases resp with
  | none => rfl
  | some r =>
    obtain ⟨dta⟩ := r
    cases dta with
    | none => rfl
    | some b =>
      obtain ⟨det⟩ := b
      cases det with
      | none => rfl
      | some s0 =>
        simp [detailOf] at h
        subst h
        rfl

/-- A single handler invocation that is not a successful submit leaves
the stored job listings and resume analysis unchanged. -/
theorem step_preserves_results (s : AppState) (e : Event)
    (he : isSuccessSubmit e = false) :
    (step s e).jobListings = s.jobListings ∧
    (step s e).resumeAnalysis = s.resumeAnalysis := by
  cases e with
  | fileChange files =>
    cases files with
    | nil => exact ⟨rfl, rfl⟩
    | cons f fs =>
      simp only [step, handleFileChange, List.head?]
      split <;> exact ⟨rfl, rfl⟩
  | submit outcome =>
    cases outcome with
    | success data => simp [isSuccessSubmit] at he
    | failure error =>
      cases hf : s.file with
      | none => simp [step, handleSubmit, hf]
      | some f => simp [step, handleSubmit, hf, settleUpload, startUpload]

/-- Running any sequence of events none of which is a successful
submit leaves the stored job listings and resume analysis unchanged. -/
theorem run_preserves_results (es : List Event) :
    ∀ s : AppState, (∀ e ∈ es, isSuccessSubmit e = false) →
      (run s es).jobListings = s.jobListings ∧
      (run s es).resumeAnalysis = s.resumeAnalysis := by
  induction es with
  | nil => intro s _; exact ⟨rfl, rfl⟩
  | cons e es ih =>
    intro s hall
    have he : isSuccessSubmit e = false := hall e (by simp)
    have hstep := step_preserves_results s e he
    have hrest := ih (step s e) (fun x hx => hall x (by simp [hx]))
    exact ⟨hrest.1.trans hstep.1, hrest.2.trans hstep.2⟩

/-! Claim theorems. -/

/-- C1: for every submission with a selected file, once the request
settles — success, non-2xx response or network error — the
`isUploading` flag is false; the finally branch never leaves it stuck
true. -/
theorem C1_busy_flag_reset (s : AppState) (f : File) (h : s.file = some f)
    (outcome : NetOutcome) :
    ((handleSubmit s outcome).1).isUploading = false := by
  cases outcome <;> simp [handleSubmit, h, settleUpload, startUpload]

/-- C1 witness: a concrete submission settling as a network error
leaves the busy flag false. -/
theorem C1_busy_flag_reset_witness :
    ((handleSubmit stateWithFile (.failure networkError)).1).isUploading = false :=
  C1_busy_flag_reset stateWithFile pdfFile rfl (.failure networkError)

/-- C2: a chosen file is accepted exactly when its MIME type is in
`validTypes`; on acceptance it is stored and the prior error cleared,
on rejection the error is set to the fixed message and the stored
file cleared. -/
theorem C2_file_validation (f : File) (s : AppState) :
    (validTypes.contains f.type = true →
      handleFileChange [f] s = { s with file := some f, uploadError := "" }) ∧
    (validTypes.contains f.type = false →
      handleFileChange [f] s =
        { s with uploadError := "Please upload only PDF or DOCX files", file := none }) ∧
    ((handleFileChange [f] s).file = some f ↔ validTypes.contains f.type = true) := by
  cases hc : validTypes.contains f.type with
  | true =>
    have hacc : handleFileChange [f] s = { s with file := some f, uploadError := "" } := by
      simp only [handleFileChange, List.head?]
      rw [if_neg]
      intro hfalse
      rw [hfalse] at hc
      exact Bool.false_ne_true hc
    refine ⟨fun _ => hacc, fun hfalse => by simp [hc] at hfalse, ?_⟩
    rw [hacc]
    simp [hc]
  | false =>
    refine ⟨fun htrue => by simp [hc] at htrue, fun _ => ?_, ?_⟩
    · simp only [handleFileChange, List.head?]
      rw [if_pos]
      rw [hc]
    · simp only [handleFileChange, List.head?]
      rw [if_pos (by rw [hc])]
      simp

/-- C2 witness: a PDF is accepted and stored, the prior error cleared. -/
theorem C2_file_validation_witness :
    handleFileChange [pdfFile] initialState =
      { initialState with file := some pdfFile, uploadError := "" } :=
  (C2_file_validation pdfFile initialState).1 (by decide)

/-- C3 counterexample: the body with `detail` present but equal to
the empty string displays the generic fallback, not the (empty)
detail value: JS `||` also falls back on a present falsy field, so
the claim as stated is false. -/
theorem C3_counterexample :
    detailOf emptyDetailError = some "" ∧
    ((handleSubmit stateWithFile (.failure emptyDetailError)).1).uploadError =
      "Error uploading resume" ∧
    "Error uploading resume" ≠ "" := by
  refine ⟨rfl, rfl, by decide⟩

/-- C3 (amended): for every failed upload, the displayed message is
the `detail` string when present and non-empty, and the generic
fallback when `detail` is absent or empty; `handleSubmit` is total,
so the failure is absorbed, never propagated. -/
theorem C3_error_detail_display (s : AppState) (f : File) (error : AxiosError)
    (h : s.file = some f) :
    (∀ d, detailOf error = some d → d ≠ "" →
      ((handleSubmit s (.failure error)).1).uploadError = d) ∧
    ((detailOf error = none ∨ detailOf error = some "") →
      ((handleSubmit s (.failure error)).1).uploadError = "Error uploading resume") := by
  constructor
  · intro d hd hne
    simp [handleSubmit, h, settleUpload, startUpload]
    exact errorMessage_eq_detail error d hd hne
  · intro hfb
    simp [handleSubmit, h, settleUpload, startUpload]
    exact errorMessage_fallback error hfb

/-- C3 witness: the body with detail "file too large" displays
exactly "file too large". -/
theorem C3_error_detail_display_witness :
    ((handleSubmit stateWithFile (.failure detailError)).1).uploadError =
      "file too large" :=
  (C3_error_detail_display stateWithFile pdfFile detailError rfl).1
    "file too large" rfl (by decide)

/-- C4: submitting with no file selected sets the error to the fixed
message, issues no request, and leaves the busy flag, job listings,
resume analysis and selected file unchanged. -/
theorem C4_no_file_selected (s : AppState) (outcome : NetOutcome)
    (h : s.file = none) :
    handleSubmit s outcome =
      ({ s with uploadError := "Please select a file first" }, []) ∧
    ((handleSubmit s outcome).1).isUploading = s.isUploading ∧
    ((handleSubmit s outcome).1).jobListings = s.jobListings ∧
    ((handleSubmit s outcome).1).resumeAnalysis = s.resumeAnalysis ∧
    ((handleSubmit s outcome).1).file = s.file := by
  simp [handleSubmit, h]

/-- C4 witness: submitting from the initial state issues no request
and only sets the error message. -/
theorem C4_no_file_selected_witness :
    handleSubmit initialState (.failure networkError) =
      ({ initialState with uploadError := "Please select a file first" }, []) :=
  (C4_no_file_selected initialState (.failure networkError) rfl).1

/-- C5: a successful response replaces the stored job listings and
resume analysis wholesale with the corresponding response fields,
independently of any previously stored values. -/
theorem C5_wholesale_replacement (s : AppState) (f : File) (data : ResponseData)
    (h : s.file = some f) :
    ((handleSubmit s (.success data)).1).jobListings = data.job_listings ∧
    ((handleSubmit s (.success data)).1).resumeAnalysis = data.resume_analysis := by
  simp [handleSubmit, h, settleUpload, startUpload]

/-- C5 witness: a concrete success body replaces both stored values. -/
theorem C5_wholesale_replacement_witness :
    ((handleSubmit stateWithFile (.success sampleResponse)).1).jobListings =
      sampleResponse.job_listings ∧
    ((handleSubmit stateWithFile (.success sampleResponse)).1).resumeAnalysis =
      sampleResponse.resume_analysis :=
  C5_wholesale_replacement stateWithFile pdfFile sampleResponse rfl

/-- C6: a failed upload leaves the previously stored job listings and
resume analysis unchanged (stale), and before the first successful
upload — after any event sequence with no successful submit — the
listings are empty and the analysis absent, as in the initial state. -/
theorem C6_stale_retention (s : AppState) (f : File) (error : AxiosError)
    (h : s.file = some f) (es : List Event)
    (hes : ∀ e ∈ es, isSuccessSubmit e = false) :
    ((handleSubmit s (.failure error)).1).jobListings = s.jobListings ∧
    ((handleSubmit s (.failure error)).1).resumeAnalysis = s.resumeAnalysis ∧
    (run initialState es).jobListings = some [] ∧
    (run initialState es).resumeAnalysis = none := by
  have hr := run_preserves_results es initialState hes
  refine ⟨?_, ?_, hr.1.trans rfl, hr.2.trans rfl⟩
  · simp [handleSubmit, h, settleUpload, startUpload]
  · simp [handleSubmit, h, settleUpload, startUpload]

/-- C6 witness: a concrete failed upload keeps the stored values, and
a concrete no-success event sequence ends with empty listings and
absent analysis. -/
theorem C6_stale_retention_witness :
    ((handleSubmit stateWithFile (.failure networkError)).1).jobListings =
      stateWithFile.jobListings ∧
    ((handleSubmit stateWithFile (.failure networkError)).1).resumeAnalysis =
      stateWithFile.resumeAnalysis ∧
    (run initialState [Event.fileChange [pdfFile]]).jobListings = some [] ∧
    (run initialState [Event.fileChange [pdfFile]]).resumeAnalysis = none :=
  C6_stale_retention stateWithFile pdfFile networkError rfl
    [Event.fileChange [pdfFile]] (by decide)

/-- C7: with a file selected, the handler first sets the busy flag
and clears the error, then issues exactly one request: a POST whose
URL has path /api/upload-resume, with multipart/form-data content
type and the selected file as the single part named file. -/
theorem C7_request_shape (s : AppState) (f : File) (outcome : NetOutcome)
    (h : s.file = some f) :
    (startUpload s).isUploading = true ∧
    (startUpload s).uploadError = "" ∧
    handleSubmit s outcome = (settleUpload (startUpload s) outcome, [uploadRequest f]) ∧
    (uploadRequest f).method = "POST" ∧
    urlPath (uploadRequest f).url = "/api/upload-resume" ∧
    (uploadRequest f).contentType = "multipart/form-data" ∧
    (uploadRequest f).parts = [("file", f)] := by
  refine ⟨rfl, rfl, ?_, rfl, ?_, rfl, rfl⟩
  · simp [handleSubmit, h]
  · rfl

/-- C7 witness: the request issued for a concrete state and file. -/
theorem C7_request_shape_witness :
    handleSubmit stateWithFile (.failure networkError) =
      (settleUpload (startUpload stateWithFile) (.failure networkError),
        [uploadRequest pdfFile]) ∧
    urlPath (uploadRequest pdfFile).url = "/api/upload-resume" :=
  have hc := C7_request_shape stateWithFile pdfFile (.failure networkError) rfl
  ⟨hc.2.2.1, hc.2.2.2.2.1⟩

/-- C8: when the stored job-listing sequence has N > 0 entries the
renderer produces exactly N cards, one per listing, each showing the
match score as an integer percentage and a progress bar whose filled
width is that same percentage; an empty sequence renders no cards. -/
theorem C8_render_cards (s : AppState) (l : List Job) (h : s.jobListings = some l) :
    renderedJobCards s = Except.ok (renderJobCards l) ∧
    (0 < l.length →
      renderJobCards l = l.map renderJobCard ∧
      (renderJobCards l).length = l.length) ∧
    (∀ job ∈ l,
      (renderJobCard job).matchScoreText = toString job.match_score ++ "%" ∧
      (renderJobCard job).progressBarWidth = toString job.match_score ++ "%") ∧
    (l = [] → renderJobCards l = []) := by
  refine ⟨?_, ?_, ?_, ?_⟩
  · simp [renderedJobCards, h]
  · intro hl
    constructor
    · simp [renderJobCards, hl]
    · simp [renderJobCards, hl]
  · intro job _
    exact ⟨rfl, rfl⟩
  · intro hl
    subst hl
    rfl

/-- C8 witness: one stored listing renders exactly one card whose
badge text and bar width are both the 85 percent score. -/
theorem C8_render_cards_witness :
    renderedJobCards stateWithJobs = Except.ok (renderJobCards [sampleJob]) ∧
    (renderJobCards [sampleJob]).length = [sampleJob].length ∧
    (renderJobCard sampleJob).matchScoreText = toString sampleJob.match_score ++ "%" ∧
    (renderJobCard sampleJob).progressBarWidth = toString sampleJob.match_score ++ "%" :=
  have hc := C8_render_cards stateWithJobs [sampleJob] rfl
  ⟨hc.1, (hc.2.1 (by decide)).2,
    (hc.2.2.1 sampleJob (by simp)).1, (hc.2.2.1 sampleJob (by simp)).2⟩

/-- C9: a 2xx body is stored with no shape validation: both state
fields are set to exactly the body fields even when absent; when
`job_listings` is absent the stored value is undefined and the
renderer guard reading its length throws instead of safely rendering
nothing. -/
theorem C9_no_shape_validation (s : AppState) (f : File) (body : ResponseData)
    (h : s.file = some f) :
    ((handleSubmit s (.success body)).1).jobListings = body.job_listings ∧
    ((handleSubmit s (.success body)).1).resumeAnalysis = body.resume_analysis ∧
    (body.job_listings = none →
      ((handleSubmit s (.success body)).1).jobListings = none ∧
      jobListingsNonEmpty ((handleSubmit s (.success body)).1).jobListings =
        Except.error "TypeError: cannot read property length of undefined") := by
  have h1 : ((handleSubmit s (.success body)).1).jobListings = body.job_listings := by
    simp [handleSubmit, h, settleUpload, startUpload]
  have h2 : ((handleSubmit s (.success body)).1).resumeAnalysis = body.resume_analysis := by
    simp [handleSubmit, h, settleUpload, startUpload]
  refine ⟨h1, h2, ?_⟩
  intro hb
  rw [h1, hb]
  exact ⟨rfl, rfl⟩

/-- C9 witness: a 2xx body lacking both fields leaves the listings
state undefined and the renderer guard throwing. -/
theorem C9_no_shape_validation_witness :
    ((handleSubmit stateWithFile (.success emptyBody)).1).jobListings = none ∧
    jobListingsNonEmpty ((handleSubmit stateWithFile (.success emptyBody)).1).jobListings =
      Except.error "TypeError: cannot read property length of undefined" :=
  (C9_no_shape_validation stateWithFile pdfFile emptyBody rfl).2.2 rfl

/-- C10: a change event with an empty file list leaves the whole
state — selected file, error, busy flag, listings, analysis —
unchanged. -/
theorem C10_empty_selection_noop (s : AppState) : handleFileChange [] s = s := rfl

end JobNexus
